import Mathlib

/-!
# Verification of the couchcontroller network core

A shallow embedding of the protocol/network core of the `couchcontroller`
repository, together with theorems checking the natural-language
specification against the code.

Conventions of the embedding:
* Python `bytes` values are `List Nat` (each entry a byte value `< 256`).
* Machine integers are `Nat`/`Int` with explicit `% 2^w` where the code wraps.
* Fallible Python code (raising exceptions) is embedded with `Except String`;
  the string is the exception message.
* Wall-clock time (`time.time()`) is an explicit `Int` parameter `now`.
* Python `dict`s keyed by strings are association lists `List (String × _)`
  (insertion appends; insertion-ordered iteration matches Python semantics).
* Socket I/O is external: a received datagram is an explicit input, a sent
  datagram is recorded in the returned output list; callbacks into the
  application layer are recorded as output events.
-/

namespace CouchController

/-! ## Python `struct` fragment

The code uses `struct.pack`/`struct.unpack` with the big-endian formats
`'!BII'` (protocol.py, `NetworkMessage`) and `'!Hhhh BB'` (protocol.py,
`ControllerState`; whitespace between format codes is ignored by Python's
`struct`, so this format has the six codes `H h h h B B`).
-/

/-- Big-endian byte encoding of `v` on `k` bytes (`struct` codes `B`/`H`/`I`
produce 1/2/4 of these). -/
def beBytes : Nat → Nat → List Nat
  | 0, _ => []
  | k + 1, v => beBytes k (v / 256) ++ [v % 256]

/-- Big-endian value of a byte list (`struct.unpack` direction). -/
def beValue (l : List Nat) : Nat := l.foldl (fun acc b => acc * 256 + b) 0

/-- `struct.pack('!BII', a, b, c)`: one unsigned byte and two big-endian
unsigned 32-bit integers, 9 bytes total.  `struct.pack` range-checks its
arguments. -/
def structPackBII (a b c : Nat) : Except String (List Nat) :=
  if a < 256 ∧ b < 2 ^ 32 ∧ c < 2 ^ 32 then
    .ok (beBytes 1 a ++ beBytes 4 b ++ beBytes 4 c)
  else
    .error "argument out of range"

/-- `struct.unpack('!BII', buf)`: requires a buffer of exactly
`struct.calcsize('!BII') = 9` bytes, otherwise raises `struct.error`. -/
def structUnpackBII (buf : List Nat) :
    Except String (Nat × Nat × Nat) :=
  if buf.length = 9 then
    .ok (beValue (buf.take 1), beValue ((buf.drop 1).take 4),
         beValue ((buf.drop 5).take 4))
  else
    .error "unpack requires a buffer of 9 bytes"

/-- Format codes appearing in `'!Hhhh BB'`: unsigned 16-bit, signed 16-bit,
unsigned 8-bit. -/
inductive StructCode where
  | uH : StructCode
  | sh : StructCode
  | uB : StructCode
deriving DecidableEq, Repr

/-- The format string `'!Hhhh BB'` of `ControllerState.pack`/`unpack`
(protocol.py line 77/91).  Whitespace between format codes is ignored by
Python's `struct`, so the format has exactly six codes: `H h h h B B`. -/
def fmtHhhhBB : List StructCode :=
  [.uH, .sh, .sh, .sh, .uB, .uB]

/-- Packing of a single value under one format code, with `struct.pack`'s
range checks (`H`: 0..65535, `h`: -32768..32767, `B`: 0..255). -/
def packCode : StructCode → Int → Except String (List Nat)
  | .uH, v =>
      if 0 ≤ v ∧ v < 65536 then .ok (beBytes 2 v.toNat)
      else .error "H format requires 0 <= number <= 65535"
  | .sh, v =>
      if -32768 ≤ v ∧ v < 32768 then .ok (beBytes 2 (v.emod 65536).toNat)
      else .error "short format requires -32768 <= number <= 32767"
  | .uB, v =>
      if 0 ≤ v ∧ v < 256 then .ok (beBytes 1 v.toNat)
      else .error "ubyte format requires 0 <= number <= 255"

/-- Packing of a value list against a format-code list (both already known to
have equal length). -/
def packCodes : List StructCode → List Int → Except String (List Nat)
  | [], _ => .ok []
  | _, [] => .ok []
  | c :: cs, v :: vs => do
      let b ← packCode c v
      let rest ← packCodes cs vs
      .ok (b ++ rest)

/-- `struct.pack(fmt, *vals)`: raises `struct.error` when the number of
values differs from the number of format codes. -/
def structPack (fmt : List StructCode) (vals : List Int) :
    Except String (List Nat) :=
  if vals.length = fmt.length then packCodes fmt vals
  else .error "pack expected 6 items for packing (got 7)"

/-- Byte size of one format code. -/
def codeSize : StructCode → Nat
  | .uH => 2
  | .sh => 2
  | .uB => 1

/-- `struct.calcsize(fmt)`. -/
def calcsize (fmt : List StructCode) : Nat :=
  (fmt.map codeSize).sum

/-- Decoding of a byte list against a format-code list (signed codes use
two's complement). -/
def unpackCodes : List StructCode → List Nat → List Int
  | [], _ => []
  | c :: cs, buf =>
      let v : Nat := beValue (buf.take (codeSize c))
      let x : Int :=
        match c with
        | .sh => if v < 32768 then (v : Int) else (v : Int) - 65536
        | _ => (v : Int)
      x :: unpackCodes cs (buf.drop (codeSize c))

/-- `struct.unpack(fmt, buf)`: requires `len(buf) = calcsize(fmt)`. -/
def structUnpack (fmt : List StructCode) (buf : List Nat) :
    Except String (List Int) :=
  if buf.length = calcsize fmt then .ok (unpackCodes fmt buf)
  else .error "unpack requires a buffer of 10 bytes"

/-! ## `protocol.py`: `MessageType`, `ControllerState`, `NetworkMessage` -/

/- `MessageType` enumeration values (protocol.py).  Python's
`MessageType(v)` constructor raises `ValueError` on any other value. -/
namespace MessageType

def HELLO : Nat := 0
def WELCOME : Nat := 1
def PING : Nat := 2
def PONG : Nat := 3
def DISCONNECT : Nat := 4
def CONTROLLER_STATE : Nat := 10
def CONTROLLER_ASSIGN : Nat := 11
def VIDEO_FRAME : Nat := 20
def VIDEO_CONFIG : Nat := 21

/-- Whether `v` is a member of the `MessageType` enumeration. -/
def isValue (v : Nat) : Bool :=
  v = HELLO ∨ v = WELCOME ∨ v = PING ∨ v = PONG ∨ v = DISCONNECT ∨
    v = CONTROLLER_STATE ∨ v = CONTROLLER_ASSIGN ∨ v = VIDEO_FRAME ∨
    v = VIDEO_CONFIG

end MessageType

/-- `ControllerState` (protocol.py): 14 button flags, four signed 16-bit
axes, two unsigned 8-bit triggers. -/
structure ControllerState where
  button_a : Bool
  button_b : Bool
  button_x : Bool
  button_y : Bool
  button_lb : Bool
  button_rb : Bool
  button_back : Bool
  button_start : Bool
  button_lstick : Bool
  button_rstick : Bool
  dpad_up : Bool
  dpad_down : Bool
  dpad_left : Bool
  dpad_right : Bool
  lstick_x : Int
  lstick_y : Int
  rstick_x : Int
  rstick_y : Int
  trigger_l : Int
  trigger_r : Int
deriving DecidableEq, Repr

namespace ControllerState

/-- Python `bool << k` inside the button-packing code: `True` is 1. -/
def boolBit (b : Bool) : Nat := if b then 1 else 0

/-- The 16-bit `buttons` word assembled by `ControllerState.pack`
(protocol.py lines 58-72): bit `k` is the `k`-th flag in declaration
order. -/
def buttonsWord (s : ControllerState) : Nat :=
  boolBit s.button_a <<< 0 |||
  boolBit s.button_b <<< 1 |||
  boolBit s.button_x <<< 2 |||
  boolBit s.button_y <<< 3 |||
  boolBit s.button_lb <<< 4 |||
  boolBit s.button_rb <<< 5 |||
  boolBit s.button_back <<< 6 |||
  boolBit s.button_start <<< 7 |||
  boolBit s.button_lstick <<< 8 |||
  boolBit s.button_rstick <<< 9 |||
  boolBit s.dpad_up <<< 10 |||
  boolBit s.dpad_down <<< 11 |||
  boolBit s.dpad_left <<< 12 |||
  boolBit s.dpad_right <<< 13

/-- `ControllerState.pack` (protocol.py lines 54-85): packs the buttons word,
the four axes and the two triggers — seven values — with the six-code format
`'!Hhhh BB'`. -/
def pack (state : ControllerState) : Except String (List Nat) :=
  structPack fmtHhhhBB
    [(buttonsWord state : Int), state.lstick_x, state.lstick_y,
     state.rstick_x, state.rstick_y, state.trigger_l, state.trigger_r]

/-- `ControllerState.unpack` (protocol.py lines 87-115): unpacks with the
six-code format `'!Hhhh BB'` and then destructures the result into seven
names (a Python tuple-unpacking that raises `ValueError` unless exactly
seven values are produced). -/
def unpack (data : List Nat) : Except String ControllerState :=
  match structUnpack fmtHhhhBB data with
  | .error e => .error e
  | .ok vals =>
      match vals with
      | [buttons, lx, ly, rx, ry, tl, tr] =>
          let b : Nat := buttons.toNat
          .ok
            { button_a := b &&& (1 <<< 0) ≠ 0
              button_b := b &&& (1 <<< 1) ≠ 0
              button_x := b &&& (1 <<< 2) ≠ 0
              button_y := b &&& (1 <<< 3) ≠ 0
              button_lb := b &&& (1 <<< 4) ≠ 0
              button_rb := b &&& (1 <<< 5) ≠ 0
              button_back := b &&& (1 <<< 6) ≠ 0
              button_start := b &&& (1 <<< 7) ≠ 0
              button_lstick := b &&& (1 <<< 8) ≠ 0
              button_rstick := b &&& (1 <<< 9) ≠ 0
              dpad_up := b &&& (1 <<< 10) ≠ 0
              dpad_down := b &&& (1 <<< 11) ≠ 0
              dpad_left := b &&& (1 <<< 12) ≠ 0
              dpad_right := b &&& (1 <<< 13) ≠ 0
              lstick_x := lx
              lstick_y := ly
              rstick_x := rx
              rstick_y := ry
              trigger_l := tl
              trigger_r := tr }
      | _ => .error "not enough values to unpack (expected 7)"

end ControllerState

/-- `NetworkMessage` (protocol.py lines 118-148).  The constructor stores
`sequence % 2^24`. -/
structure NetworkMessage where
  msg_type : Nat
  payload : List Nat
  sequence : Nat
deriving DecidableEq, Repr

namespace NetworkMessage

/-- `NetworkMessage.HEADER_SIZE = 8` — the comment in the source reads
`Type(1) + Sequence(3) + Length(4)`, although the struct format `'!BII'`
used by `pack`/`unpack` occupies 9 bytes. -/
def HEADER_SIZE : Nat := 8

/-- `NetworkMessage.MAX_PAYLOAD_SIZE = 65507 - HEADER_SIZE`. -/
def MAX_PAYLOAD_SIZE : Nat := 65507 - HEADER_SIZE

/-- `NetworkMessage.__init__`: the sequence field is reduced modulo
`2^24`. -/
def mkMessage (msg_type : Nat) (payload : List Nat) (sequence : Nat) :
    NetworkMessage :=
  ⟨msg_type, payload, sequence % 2 ^ 24⟩

/-- `NetworkMessage.pack` (protocol.py lines 129-137): a `'!BII'` header —
type, `sequence & 0xFFFFFF`, payload length — followed by the payload.
`struct.pack('!BII', ...)` cannot fail here for enumeration message types
and in-range payload sizes, so the 9-byte header is produced directly. -/
def pack (m : NetworkMessage) : List Nat :=
  (beBytes 1 (m.msg_type % 256) ++ beBytes 4 (m.sequence % 2 ^ 24) ++
      beBytes 4 (m.payload.length % 2 ^ 32)) ++ m.payload

/-- `NetworkMessage.unpack` (protocol.py lines 139-148): rejects inputs
shorter than `HEADER_SIZE = 8`, then applies `struct.unpack('!BII', ·)` to
the first `HEADER_SIZE` bytes, takes `payload_len` bytes after the header
(a Python slice, silently truncated at the end of the input) and validates
the message type through the `MessageType` constructor. -/
def unpack (data : List Nat) : Except String NetworkMessage :=
  if data.length < HEADER_SIZE then
    .error "Message too short"
  else
    match structUnpackBII (data.take HEADER_SIZE) with
    | .error e => .error e
    | .ok (msg_type, sequence, payload_len) =>
        let payload := (data.drop HEADER_SIZE).take payload_len
        if MessageType.isValue msg_type then
          .ok (mkMessage msg_type payload sequence)
        else
          .error "is not a valid MessageType"

end NetworkMessage

/-! ## `host/virtual_controller.py`: `VirtualControllerManager`

The per-slot `VirtualXboxController` objects drive the external ViGEmBus
driver; the manager's bookkeeping is the dictionary `controllers` keyed by
slot (modelled as the `Finset` of its keys — the values are opaque driver
handles) and the scan pointer `next_slot`.  Creating a `VirtualXboxController`
calls into the external `vgamepad` library and may raise; the parameter
`createOk` of `assign_controller` records whether that external call
succeeds. -/

structure VirtualControllerManager where
  max_controllers : Nat
  controllers : Finset Nat
  next_slot : Nat
deriving DecidableEq

namespace VirtualControllerManager

/-- `VirtualControllerManager.__init__(max_controllers)`. -/
def init (max_controllers : Nat) : VirtualControllerManager :=
  ⟨max_controllers, ∅, 0⟩

/-- The slot scan of `assign_controller` (virtual_controller.py lines
167-169): `while slot in self.controllers and slot < self.max_controllers:
slot += 1`, driven by fuel `maxc - slot` (once `slot ≥ maxc` the loop
condition is false, so this bound is exact). -/
def scanGo (controllers : Finset Nat) (maxc : Nat) :
    Nat → Nat → Nat
  | 0, slot => slot
  | fuel + 1, slot =>
      if slot ∈ controllers ∧ slot < maxc then
        scanGo controllers maxc fuel (slot + 1)
      else slot

/-- Entry point of the slot scan, starting from `next_slot`. -/
def scanSlot (controllers : Finset Nat) (maxc slot : Nat) : Nat :=
  scanGo controllers maxc (maxc - slot) slot

/-- `assign_controller` (virtual_controller.py lines 152-184): refuse when
the table is full, scan for the next free slot from `next_slot`, refuse when
the scan ran past `max_controllers`, then create the virtual controller
(external; may fail — `createOk`), record it and advance `next_slot`. -/
def assign_controller (m : VirtualControllerManager) (createOk : Bool) :
    Option Nat × VirtualControllerManager :=
  if m.max_controllers ≤ m.controllers.card then (none, m)
  else
    let slot := scanSlot m.controllers m.max_controllers m.next_slot
    if m.max_controllers ≤ slot then (none, m)
    else if createOk then
      (some slot,
       { m with
         controllers := insert slot m.controllers
         next_slot := slot + 1 })
    else (none, m)

/-- `remove_controller` (virtual_controller.py lines 200-214): drop the
slot's entry when present and pull `next_slot` back when an earlier slot was
freed. -/
def remove_controller (m : VirtualControllerManager) (slot : Nat) :
    VirtualControllerManager :=
  if slot ∈ m.controllers then
    { m with
      controllers := m.controllers.erase slot
      next_slot := if slot < m.next_slot then slot else m.next_slot }
  else m

/-- States of the manager reachable from a fresh instance by any interleaving
of `assign_controller` and `remove_controller` calls. -/
inductive Reachable : VirtualControllerManager → Prop where
  | init (maxc : Nat) : Reachable (init maxc)
  | assign (m : VirtualControllerManager) (createOk : Bool) :
      Reachable m → Reachable (assign_controller m createOk).2
  | remove (m : VirtualControllerManager) (slot : Nat) :
      Reachable m → Reachable (remove_controller m slot)

end VirtualControllerManager

/-! ## `network/server.py`: `Client` and `GameServer`

Sockets and threads are external.  Each handler below is the body of the
corresponding `GameServer` method for one inbound datagram (the receive loop
dispatches on the decoded message type).  A handler returns the new server
state together with the datagrams it sent and the callback invocations it
made; the application callbacks (`on_client_connect`, `on_client_disconnect`)
are explicit parameters (`none`/`false` when the callback attribute is
unset). -/

/-- `server.Client`: one connected client's record.  The Python field
`controller_slot` defaults to `None`, but the server's only construction
site (`_handle_hello`, server.py line 182) always passes a concrete slot —
it returns early when the assignment callback yields `None` — so the field
is modelled as `Nat`. -/
structure Client where
  client_id : String
  address : String × Nat
  controller_slot : Nat
  last_seen : Int
  sequence : Nat
deriving DecidableEq, Repr

namespace Client

/-- `Client.is_active` (server.py lines 35-37): the record is live while
less than `timeout` time-units passed since `last_seen`; every caller uses
the default `timeout = 10.0`. -/
def is_active (c : Client) (now : Int) (timeout : Int) : Bool :=
  now - c.last_seen < timeout

end Client

/-- The client id string `f"{address[0]}:{address[1]}"` used by every
handler. -/
def mkClientId (address : String × Nat) : String :=
  address.1 ++ ":" ++ toString address.2

/-- A datagram sent by the server: destination address and message. -/
structure Sent where
  dest : String × Nat
  msg : NetworkMessage
deriving DecidableEq, Repr

/-- `GameServer` state relevant to session bookkeeping: the `clients`
dictionary keyed by client id (association list in insertion order; the
ports, sockets and thread handles are external). -/
structure GameServer where
  clients : List (String × Client)
deriving DecidableEq, Repr

namespace GameServer

/-- Dictionary lookup `self.clients[client_id]` / `client_id in
self.clients`. -/
def lookupClient (clients : List (String × Client)) (cid : String) :
    Option Client :=
  (clients.find? (fun p => p.1 = cid)).map Prod.snd

/-- In-place mutation of the record stored under `cid` (the Python handlers
mutate the `Client` object held in the dictionary). -/
def updateClient (clients : List (String × Client)) (cid : String)
    (f : Client → Client) : List (String × Client) :=
  clients.map (fun p => if p.1 = cid then (p.1, f p.2) else p)

/-- `_send_welcome` (server.py lines 192-198): a WELCOME message whose
payload is the single byte `bytes([controller_slot])` — `bytes` raises
`ValueError` for a slot outside 0..255. -/
def sendWelcome (c : Client) : Except String Sent :=
  if c.controller_slot < 256 then
    .ok ⟨c.address, NetworkMessage.mkMessage MessageType.WELCOME
          [c.controller_slot] 0⟩
  else .error "bytes must be in range(0, 256)"

/-- `_handle_hello` (server.py lines 157-190).  Returns the new state, the
sent datagrams, and whether the `on_client_connect` callback was invoked.
An existing record (any record: the registry has no separate state field —
a present record is an ACTIVE session) only gets its `last_seen` refreshed
and the WELCOME re-sent; otherwise the callback (when set) is asked for a
slot, a `None` slot silently drops the HELLO, and a fresh record is inserted
and welcomed.  An exception from `_send_welcome` would propagate to the
receive loop and be swallowed there, after the registry mutation. -/
def handleHello (st : GameServer) (now : Int) (address : String × Nat)
    (onClientConnect : Option (String → Option Nat)) :
    GameServer × List Sent × Bool :=
  match lookupClient st.clients (mkClientId address) with
  | some c =>
      match sendWelcome { c with last_seen := now } with
      | .ok s =>
          (⟨updateClient st.clients (mkClientId address)
              (fun x => { x with last_seen := now })⟩, [s], false)
      | .error _ =>
          (⟨updateClient st.clients (mkClientId address)
              (fun x => { x with last_seen := now })⟩, [], false)
  | none =>
      match onClientConnect with
      | none => (st, [], false)
      | some cb =>
          match cb (mkClientId address) with
          | none => (st, [], true)
          | some slot =>
              match sendWelcome
                  ⟨mkClientId address, address, slot, now, 0⟩ with
              | .ok s =>
                  (⟨st.clients ++ [(mkClientId address,
                      ⟨mkClientId address, address, slot, now, 0⟩)]⟩,
                   [s], true)
              | .error _ =>
                  (⟨st.clients ++ [(mkClientId address,
                      ⟨mkClientId address, address, slot, now, 0⟩)]⟩,
                   [], true)

/-- `_handle_disconnect` (server.py lines 235-248): drop the sender's record
when present and fire `on_client_disconnect` (when set) for it.  Returns the
new state and the callback invocations made. -/
def handleDisconnect (st : GameServer) (address : String × Nat)
    (hasDisconnectCb : Bool) : GameServer × List String :=
  match lookupClient st.clients (mkClientId address) with
  | some _ =>
      (⟨st.clients.eraseP (fun p => p.1 = mkClientId address)⟩,
       if hasDisconnectCb then [mkClientId address] else [])
  | none => (st, [])

/-- One iteration of `_client_timeout_loop` (server.py lines 250-271), run
every `CLIENT_SWEEP_INTERVAL` time-units: collect the ids of all records
that are no longer active, delete each collected record and fire
`on_client_disconnect` (when set) for it. -/
def timeoutSweep (st : GameServer) (now : Int) (hasDisconnectCb : Bool) :
    GameServer × List String :=
  (⟨st.clients.filter (fun p => p.2.is_active now 10)⟩,
   if hasDisconnectCb then
     (st.clients.filter (fun p => ! p.2.is_active now 10)).map Prod.fst
   else [])

end GameServer

/-- The sweep interval of `_client_timeout_loop`: `time.sleep(5.0)` between
iterations (server.py line 253). -/
def CLIENT_SWEEP_INTERVAL : Int := 5

/-- The inactivity threshold of `Client.is_active` (server.py line 35). -/
def CLIENT_TIMEOUT : Int := 10

/-! ## `network/client.py`: `GameClient` -/

/-- The two repeating duties `connect` starts on success (server-facing
threads `_video_receiver_loop` and `_keepalive_loop`). -/
inductive Duty where
  | videoReceiver : Duty
  | keepalive : Duty
deriving DecidableEq, Repr

/-- `GameClient` state (sockets are external). -/
structure GameClient where
  connected : Bool
  controller_slot : Option Nat
  running : Bool
  threads : List Duty
  input_sequence : Nat
  video_sequence : Nat
deriving DecidableEq, Repr

namespace GameClient

/-- `GameClient.__init__`. -/
def init : GameClient :=
  { connected := false, controller_slot := none, running := false,
    threads := [], input_sequence := 0, video_sequence := 0 }

/-- Result of one `connect()` call: return value, new state, number of HELLO
datagrams sent, and whether `on_connected` was invoked. -/
structure ConnectResult where
  success : Bool
  state : GameClient
  sentHello : Nat
  onConnectedFired : Bool
deriving DecidableEq, Repr

/-- `connect` (client.py lines 61-135).  The sockets are created and a
single HELLO is sent; `recv` is the datagram obtained by the subsequent
`recvfrom` under the 5-time-unit timeout (`none`: `socket.timeout`).  Any
exception raised while parsing or handling the response is caught by the
outer handler and turns into a `False` return; the body contains no retry
loop.  On a parsed WELCOME with a non-empty payload the slot is recorded,
the state becomes connected, the video-receiver and keepalive duties start
and `on_connected` fires. -/
def connect (c : GameClient) (recv : Option (List Nat)) : ConnectResult :=
  match recv with
  | none => ⟨false, c, 1, false⟩
  | some data =>
      match NetworkMessage.unpack data with
      | .error _ => ⟨false, c, 1, false⟩
      | .ok msg =>
          if msg.msg_type = MessageType.WELCOME then
            match msg.payload with
            | b :: _ =>
                ⟨true,
                 { c with
                   connected := true
                   controller_slot := some b
                   running := true
                   threads := [Duty.videoReceiver, Duty.keepalive] },
                 1, true⟩
            | [] => ⟨false, c, 1, false⟩
          else ⟨false, c, 1, false⟩

/-- The handshake wait window: `self.input_socket.settimeout(5.0)`
(client.py line 89). -/
def CONNECT_TIMEOUT : Int := 5

end GameClient

/-! ## `host/screen_capture.py`: bounded frame queue and `ScreenStreamer`

Capture and encoding are external collaborators; the core behavior is the
bounded `queue.Queue` between encoding and network send and the
`_on_frame_captured` policy around it.  The encoder's output for one frame
is an explicit input `encoded` (`none` when `encode_frame` returned
`None`). -/

/-- A `queue.Queue(maxsize=n)` holding items of type `α`. -/
structure BoundedQueue (α : Type) where
  maxsize : Nat
  items : List α
deriving DecidableEq, Repr

namespace BoundedQueue

/-- `put_nowait`: with a positive `maxsize`, a queue holding `maxsize` items
raises `Full` (second component `false`) and is left unchanged; otherwise
the item is appended. -/
def put_nowait {α : Type} (q : BoundedQueue α) (x : α) :
    BoundedQueue α × Bool :=
  if 0 < q.maxsize ∧ q.maxsize ≤ q.items.length then (q, false)
  else ({ q with items := q.items ++ [x] }, true)

/-- Blocking-with-timeout `get`, as used by `get_encoded_frame`: the head
item when present, `none` on timeout. -/
def get {α : Type} (q : BoundedQueue α) :
    Option α × BoundedQueue α :=
  match q.items with
  | [] => (none, q)
  | x :: rest => (some x, { q with items := rest })

end BoundedQueue

/-- `ScreenStreamer` state: the running flag, whether `start()` installed an
encoder and a frame callback, and the bounded queue of encoded chunks with
their timestamps. -/
structure ScreenStreamer where
  running : Bool
  hasEncoder : Bool
  hasFrameCallback : Bool
  encoded_queue : BoundedQueue (List Nat × Int)
deriving DecidableEq, Repr

namespace ScreenStreamer

/-- `ScreenStreamer.__init__(..., max_queue_size=5)` (screen_capture.py
lines 239-259): the queue is created with `maxsize = max_queue_size`; the
host CLI keeps the default 5. -/
def init (max_queue_size : Nat) : ScreenStreamer :=
  { running := false, hasEncoder := false, hasFrameCallback := false,
    encoded_queue := ⟨max_queue_size, []⟩ }

/-- `ScreenStreamer.start(frame_callback)`: creates the encoder, sets
`running` and stores the callback. -/
def start (st : ScreenStreamer) (hasCb : Bool) : ScreenStreamer :=
  { st with running := true, hasEncoder := true, hasFrameCallback := hasCb }

/-- `_on_frame_captured` (screen_capture.py lines 301-319): return
immediately unless running with an encoder; encode the frame (external —
`encoded` is the result); on a truthy result (`if encoded:` — `None` and
the empty byte string are both falsy) try `put_nowait`, dropping the chunk
on `Full`, then invoke `frame_callback` when set.  Returns the new state
and the callback invocations made. -/
def onFrameCaptured (st : ScreenStreamer) (encoded : Option (List Nat))
    (ts : Int) : ScreenStreamer × List (List Nat × Int) :=
  if ¬ st.running ∨ ¬ st.hasEncoder then (st, [])
  else
    match encoded with
    | none => (st, [])
    | some b =>
        if b.isEmpty then (st, [])
        else
          ({ st with
             encoded_queue := (st.encoded_queue.put_nowait (b, ts)).1 },
           if st.hasFrameCallback then [(b, ts)] else [])

/-- `get_encoded_frame` (screen_capture.py lines 320-330). -/
def getEncodedFrame (st : ScreenStreamer) :
    Option (List Nat × Int) × ScreenStreamer :=
  (st.encoded_queue.get.1, { st with encoded_queue := st.encoded_queue.get.2 })

/-- Streamer states reachable from the host's construction (default queue
capacity 5) by starting and any interleaving of captured frames and queue
reads. -/
inductive Reachable : ScreenStreamer → Prop where
  | init : Reachable (init 5)
  | start (st : ScreenStreamer) (hasCb : Bool) :
      Reachable st → Reachable (st.start hasCb)
  | frame (st : ScreenStreamer) (encoded : Option (List Nat)) (ts : Int) :
      Reachable st → Reachable (st.onFrameCaptured encoded ts).1
  | get (st : ScreenStreamer) :
      Reachable st → Reachable (st.getEncodedFrame).2

end ScreenStreamer

/-- A streamer that was started and captured five encoded frames: its
(capacity-5) queue is full. -/
def fullStreamer : ScreenStreamer :=
  (((((((ScreenStreamer.init 5).start true).onFrameCaptured
    (some [7]) 0).1.onFrameCaptured (some [7]) 0).1.onFrameCaptured
    (some [7]) 0).1.onFrameCaptured (some [7]) 0).1.onFrameCaptured
    (some [7]) 0).1

/-! ## Helper lemmas -/

/-- `beBytes` always produces exactly `k` bytes. -/
theorem beBytes_length (k v : Nat) : (beBytes k v).length = k := by
  induction k generalizing v with
  | zero => rfl
  | succ k ih => simp [beBytes, ih]

/-- `NetworkMessage.pack` produces a 9-byte header followed by the
payload. -/
theorem pack_length (m : NetworkMessage) :
    m.pack.length = 9 + m.payload.length := by
  simp [NetworkMessage.pack, beBytes_length]
  omega

/-- The central defect of the wire codec: `NetworkMessage.unpack` applies
the 9-byte pattern `'!BII'` to an `HEADER_SIZE = 8`-byte slice, so every
call raises — short inputs at the explicit length check, all others inside
`struct.unpack`. -/
theorem unpack_isError (data : List Nat) :
    ∃ e, NetworkMessage.unpack data = .error e := by
  by_cases h : data.length < NetworkMessage.HEADER_SIZE
  · exact ⟨"Message too short", by simp [NetworkMessage.unpack, h]⟩
  · refine ⟨"unpack requires a buffer of 9 bytes", ?_⟩
    have hlen : (data.take NetworkMessage.HEADER_SIZE).length = 8 := by
      simp only [List.length_take, NetworkMessage.HEADER_SIZE] at h ⊢
      omega
    simp [NetworkMessage.unpack, h, structUnpackBII, hlen]

/-! ## Claim theorems: wire codec -/

/-- C1: the claimed round-trip `decodeMessage(encodeMessage(m)) = m` (modulo
24-bit sequence truncation) fails on the code for every message, already at
the simplest valid one: `encodeMessage` of an empty-payload HELLO produces a
well-formed 9-byte datagram, and `decodeMessage` rejects it — the 9-byte
header pattern `'!BII'` is applied to an 8-byte slice (`HEADER_SIZE = 8`,
whose own comment `Type(1) + Sequence(3) + Length(4)` contradicts the
4-byte sequence the pack format writes). -/
theorem message_roundtrip_fails :
    (NetworkMessage.mkMessage MessageType.HELLO [] 0).pack.length = 9 ∧
    NetworkMessage.unpack (NetworkMessage.mkMessage MessageType.HELLO [] 0).pack
      = .error "unpack requires a buffer of 9 bytes" :=
  ⟨rfl, rfl⟩

/-- C2: the claimed `encodeInputState` success (14 bytes) fails on the code
for every input state: `ControllerState.pack` passes seven values (buttons
word, four axes, two triggers) to `struct.pack` with format `'!Hhhh BB'`,
which has only six format codes, so the call always raises
`struct.error`. -/
theorem controller_state_pack_fails (s : ControllerState) :
    ControllerState.pack s = .error "pack expected 6 items for packing (got 7)" :=
  rfl

/-- C3: the claim that `decodeMessage` fails exactly on inputs shorter than
the 9-byte header or with an ill-fitting declared payload length is wrong on
the code: the 9-byte datagram below is a complete header (type HELLO,
sequence 0, declared payload length 0, which fits the zero remaining bytes),
yet `unpack` rejects it, because `struct.unpack('!BII', ·)` is applied to
the first `HEADER_SIZE = 8` bytes only. -/
theorem wellformed_datagram_rejected :
    ([0, 0, 0, 0, 0, 0, 0, 0, 0] : List Nat).length = 9 ∧
    NetworkMessage.unpack [0, 0, 0, 0, 0, 0, 0, 0, 0]
      = .error "unpack requires a buffer of 9 bytes" :=
  ⟨rfl, rfl⟩

/-- C9: `NetworkMessage.unpack` raises on every byte string — inputs
shorter than `HEADER_SIZE = 8` fail the explicit length check, and every
other input fails inside `struct.unpack`, whose `'!BII'` pattern needs 9
bytes but receives the 8-byte slice `data[:8]`; no datagram is ever
successfully decoded. -/
theorem unpack_never_succeeds (data : List Nat) :
    ∃ e, NetworkMessage.unpack data = Except.error e :=
  unpack_isError data

/-! ## Claim theorems: controller slot management -/

namespace VirtualControllerManager

/-- When the slot scan halts below `max_controllers`, it halted because the
candidate slot is free. -/
theorem scanGo_not_mem (C : Finset Nat) (maxc : Nat) :
    ∀ fuel slot, maxc - slot ≤ fuel →
      scanGo C maxc fuel slot < maxc → scanGo C maxc fuel slot ∉ C := by
  intro fuel
  induction fuel with
  | zero =>
      intro slot hfuel hlt
      simp only [scanGo] at hlt ⊢
      omega
  | succ fuel ih =>
      intro slot hfuel hlt
      by_cases h : slot ∈ C ∧ slot < maxc
      · have hrw : scanGo C maxc (fuel + 1) slot = scanGo C maxc fuel (slot + 1) := by
          simp [scanGo, h]
        rw [hrw] at hlt ⊢
        exact ih (slot + 1) (by omega) hlt
      · have hrw : scanGo C maxc (fuel + 1) slot = slot := by
          simp only [scanGo, if_neg h]
        rw [hrw] at hlt ⊢
        intro hmem
        exact h ⟨hmem, hlt⟩

/-- `assign_controller` either leaves the state unchanged or records one
fresh slot below `max_controllers` and advances `next_slot` past it. -/
theorem assign_controller_cases (m : VirtualControllerManager)
    (createOk : Bool) :
    (m.assign_controller createOk).2 = m ∨
    ∃ slot, slot < m.max_controllers ∧
      (m.assign_controller createOk).2 =
        { m with
          controllers := insert slot m.controllers
          next_slot := slot + 1 } := by
  unfold assign_controller
  by_cases hcard : m.max_controllers ≤ m.controllers.card
  · left
    rw [if_pos hcard]
  · rw [if_neg hcard]
    by_cases hover :
        m.max_controllers ≤ scanSlot m.controllers m.max_controllers m.next_slot
    · left
      rw [if_pos hover]
    · rw [if_neg hover]
      cases createOk with
      | false => left; rfl
      | true => right; exact ⟨_, by omega, rfl⟩

/-- `remove_controller` keeps `max_controllers` and only sheds slots. -/
theorem remove_controller_cases (m : VirtualControllerManager) (slot : Nat) :
    (m.remove_controller slot).max_controllers = m.max_controllers ∧
    (m.remove_controller slot).controllers ⊆ m.controllers := by
  unfold remove_controller
  by_cases hmem : slot ∈ m.controllers
  · rw [if_pos hmem]
    exact ⟨rfl, Finset.erase_subset _ _⟩
  · rw [if_neg hmem]
    exact ⟨rfl, Finset.Subset.refl _⟩

/-- The slot returned by a successful `assign_controller` was unassigned at
the moment of the call and lies below `max_controllers`. -/
theorem assign_controller_fresh (m : VirtualControllerManager)
    (createOk : Bool) (slot : Nat)
    (h : (m.assign_controller createOk).1 = some slot) :
    slot ∉ m.controllers ∧ slot < m.max_controllers := by
  unfold assign_controller at h
  by_cases hcard : m.max_controllers ≤ m.controllers.card
  · simp [hcard] at h
  · simp only [if_neg hcard] at h
    by_cases hover :
        m.max_controllers ≤ scanSlot m.controllers m.max_controllers m.next_slot
    · simp [hover] at h
    · simp only [if_neg hover] at h
      cases createOk with
      | false => simp at h
      | true =>
          obtain rfl : scanSlot m.controllers m.max_controllers m.next_slot = slot := by
            simpa using h
          have hlt : scanSlot m.controllers m.max_controllers m.next_slot
              < m.max_controllers := by omega
          refine ⟨?_, hlt⟩
          unfold scanSlot at hlt ⊢
          exact scanGo_not_mem m.controllers m.max_controllers _ m.next_slot
            (Nat.le_refl _) hlt

/-- Invariant of every reachable manager state: all assigned slots lie below
`max_controllers`. -/
theorem reachable_slots_lt (m : VirtualControllerManager)
    (h : Reachable m) : ∀ s ∈ m.controllers, s < m.max_controllers := by
  induction h with
  | init maxc => simp [VirtualControllerManager.init]
  | assign m createOk _ ih =>
      rcases assign_controller_cases m createOk with heq | ⟨slot, hlt, heq⟩
      · rw [heq]
        exact ih
      · rw [heq]
        intro s hs
        simp only [Finset.mem_insert] at hs
        rcases hs with rfl | hs
        · exact hlt
        · exact ih s hs
  | remove m slot _ ih =>
      intro s hs
      rw [(remove_controller_cases m slot).1]
      exact ih s ((remove_controller_cases m slot).2 hs)

end VirtualControllerManager

/-- C4: at every manager state reachable by any sequence of
`assign_controller` / `remove_controller` calls, the assigned slots are
duplicate-free and all lie strictly below `max_controllers`, and
`assign_controller` returns either `none` or a slot unassigned at the
moment of the call. -/
theorem controller_slots_invariant (m : VirtualControllerManager)
    (h : VirtualControllerManager.Reachable m) :
    m.controllers.toList.Nodup ∧
    (∀ s ∈ m.controllers, s < m.max_controllers) ∧
    (∀ (createOk : Bool) (slot : Nat),
      (m.assign_controller createOk).1 = some slot → slot ∉ m.controllers) :=
  ⟨m.controllers.nodup_toList,
   VirtualControllerManager.reachable_slots_lt m h,
   fun createOk slot hs =>
     (VirtualControllerManager.assign_controller_fresh m createOk slot hs).1⟩

/-- Witness for C4 at a concrete reachable state: a fresh 4-slot manager
after one successful assignment. -/
theorem controller_slots_invariant_witness :
    (((VirtualControllerManager.init 4).assign_controller
        true).2.controllers.toList.Nodup ∧
    (∀ s ∈ ((VirtualControllerManager.init 4).assign_controller
        true).2.controllers,
      s < ((VirtualControllerManager.init 4).assign_controller
        true).2.max_controllers) ∧
    (∀ (createOk : Bool) (slot : Nat),
      (((VirtualControllerManager.init 4).assign_controller
          true).2.assign_controller createOk).1 = some slot →
        slot ∉ ((VirtualControllerManager.init 4).assign_controller
          true).2.controllers)) :=
  controller_slots_invariant _
    (VirtualControllerManager.Reachable.assign _ true
      (VirtualControllerManager.Reachable.init 4))

/-! ## Claim theorems: session registry -/

namespace GameServer

/-- Looking up the key whose record was mutated in place yields the mutated
record. -/
theorem lookupClient_updateClient (l : List (String × Client)) (cid : String)
    (f : Client → Client) :
    lookupClient (updateClient l cid f) cid = (lookupClient l cid).map f := by
  induction l with
  | nil => rfl
  | cons p t ih =>
      by_cases h : p.1 = cid
      · simp [lookupClient, updateClient, List.find?_cons, h]
      · simp only [lookupClient, updateClient, List.map_cons, if_neg h] at ih ⊢
        rw [List.find?_cons_of_neg, List.find?_cons_of_neg]
        · exact ih
        · simpa using h
        · simpa using h

/-- Two in-place mutations of the same record compose. -/
theorem updateClient_updateClient (l : List (String × Client)) (cid : String)
    (f g : Client → Client) :
    updateClient (updateClient l cid f) cid g
      = updateClient l cid (fun x => g (f x)) := by
  induction l with
  | nil => rfl
  | cons p t ih =>
      by_cases h : p.1 = cid <;>
        simp [updateClient, h] at ih ⊢ <;>
        exact ih

/-- In-place record mutation does not change the key set. -/
theorem updateClient_keys (l : List (String × Client)) (cid : String)
    (f : Client → Client) :
    (updateClient l cid f).map Prod.fst = l.map Prod.fst := by
  induction l with
  | nil => rfl
  | cons p t ih =>
      by_cases h : p.1 = cid <;> simp [updateClient, h] at ih ⊢ <;> exact ih

end GameServer

/-- C5: a HELLO from an address that already has an ACTIVE record is
idempotent — it re-sends the WELCOME with the previously assigned slot and
refreshes `last_seen`, invokes no slot-assignment callback, creates no
second session and changes no slot, and processing the HELLO a second time
reproduces exactly the same registry state and outputs. -/
theorem hello_idempotent (st : GameServer) (now : Int)
    (address : String × Nat) (cb : Option (String → Option Nat)) (c : Client)
    (hc : GameServer.lookupClient st.clients (mkClientId address) = some c)
    (hslot : c.controller_slot < 256) :
    (st.handleHello now address cb).2.2 = false ∧
    (st.handleHello now address cb).2.1 =
      [⟨c.address,
        NetworkMessage.mkMessage MessageType.WELCOME [c.controller_slot] 0⟩] ∧
    (st.handleHello now address cb).1.clients =
      GameServer.updateClient st.clients (mkClientId address)
        (fun x => { x with last_seen := now }) ∧
    (st.handleHello now address cb).1.clients.map Prod.fst =
      st.clients.map Prod.fst ∧
    (st.handleHello now address cb).1.handleHello now address cb =
      st.handleHello now address cb := by
  have h1 : st.handleHello now address cb =
      (⟨GameServer.updateClient st.clients (mkClientId address)
          (fun x => { x with last_seen := now })⟩,
       [⟨c.address,
         NetworkMessage.mkMessage MessageType.WELCOME [c.controller_slot] 0⟩],
       false) := by
    unfold GameServer.handleHello
    rw [hc]
    simp [GameServer.sendWelcome, hslot]
  have hc2 : GameServer.lookupClient
      (GameServer.updateClient st.clients (mkClientId address)
        (fun x => { x with last_seen := now })) (mkClientId address)
      = some { c with last_seen := now } := by
    rw [GameServer.lookupClient_updateClient, hc]
    rfl
  have h2 : (GameServer.mk
        (GameServer.updateClient st.clients (mkClientId address)
          (fun x => { x with last_seen := now }))).handleHello now address cb =
      (⟨GameServer.updateClient st.clients (mkClientId address)
          (fun x => { x with last_seen := now })⟩,
       [⟨c.address,
         NetworkMessage.mkMessage MessageType.WELCOME [c.controller_slot] 0⟩],
       false) := by
    unfold GameServer.handleHello
    rw [hc2]
    simp [GameServer.sendWelcome, hslot,
      GameServer.updateClient_updateClient]
  refine ⟨by rw [h1], by rw [h1], by rw [h1], ?_, ?_⟩
  · rw [h1]
    simpa using GameServer.updateClient_keys st.clients (mkClientId address)
      (fun x => { x with last_seen := now })
  · rw [h1]
    exact h2

/-- Concrete session record for the C5 witness. -/
def helloClientW : Client := ⟨"h:1", ("h", 1), 3, 0, 0⟩

/-- Concrete one-session registry for the C5 witness. -/
def helloServerW : GameServer := ⟨[("h:1", helloClientW)]⟩

/-- Witness for C5 at a concrete registry with an ACTIVE record. -/
theorem hello_idempotent_witness :
    (helloServerW.handleHello 100 ("h", 1) none).2.2 = false ∧
    (helloServerW.handleHello 100 ("h", 1) none).2.1 =
      [⟨helloClientW.address,
        NetworkMessage.mkMessage MessageType.WELCOME
          [helloClientW.controller_slot] 0⟩] ∧
    (helloServerW.handleHello 100 ("h", 1) none).1.clients =
      GameServer.updateClient helloServerW.clients (mkClientId ("h", 1))
        (fun x => { x with last_seen := 100 }) ∧
    (helloServerW.handleHello 100 ("h", 1) none).1.clients.map Prod.fst =
      helloServerW.clients.map Prod.fst ∧
    (helloServerW.handleHello 100 ("h", 1) none).1.handleHello 100 ("h", 1)
        none =
      helloServerW.handleHello 100 ("h", 1) none :=
  hello_idempotent helloServerW 100 ("h", 1) none helloClientW rfl
    (by decide)

namespace GameServer

/-- A successful lookup exhibits the entry. -/
theorem lookup_mem (l : List (String × Client)) (cid : String) (c : Client)
    (h : lookupClient l cid = some c) : (cid, c) ∈ l := by
  unfold lookupClient at h
  cases hf : l.find? (fun p => p.1 = cid) with
  | none =>
      rw [hf] at h
      exact Option.noConfusion h
  | some p =>
      rw [hf] at h
      rw [show Option.map Prod.snd (some p) = some p.2 from rfl] at h
      rw [Option.some_inj] at h
      have hp := List.mem_of_find?_eq_some hf
      have hkey := List.find?_some hf
      simp only [decide_eq_true_eq] at hkey
      have hpc : p = (cid, c) := by
        cases p
        simp_all
      rw [← hpc]
      exact hp

/-- With duplicate-free keys, entries are determined by their key. -/
theorem assoc_unique (l : List (String × Client))
    (hnd : (l.map Prod.fst).Nodup) {p q : String × Client}
    (hp : p ∈ l) (hq : q ∈ l) (hkey : p.1 = q.1) : p = q := by
  induction l with
  | nil => cases hp
  | cons a t ih =>
      simp only [List.map_cons, List.nodup_cons] at hnd
      rcases List.mem_cons.mp hp with rfl | hp'
      · rcases List.mem_cons.mp hq with rfl | hq'
        · rfl
        · exfalso
          apply hnd.1
          rw [hkey]
          exact List.mem_map_of_mem Prod.fst hq'
      · rcases List.mem_cons.mp hq with rfl | hq'
        · exfalso
          apply hnd.1
          rw [← hkey]
          exact List.mem_map_of_mem Prod.fst hp'
        · exact ih hnd.2 hp' hq'

/-- Filtering out the (unique) entry of a key makes its lookup fail. -/
theorem lookupClient_filter_none (l : List (String × Client))
    (hnd : (l.map Prod.fst).Nodup) (cid : String) (c : Client)
    (hc : lookupClient l cid = some c) (P : String × Client → Bool)
    (hPc : P (cid, c) = false) :
    lookupClient (l.filter P) cid = none := by
  have hmem := lookup_mem l cid c hc
  unfold lookupClient
  rw [Option.map_eq_none']
  rw [List.find?_eq_none]
  intro x hx hkey
  simp only [decide_eq_true_eq] at hkey
  have hx' := List.mem_filter.mp hx
  have hxe : x = (cid, c) := assoc_unique l hnd hx'.1 hmem (by simpa using hkey)
  rw [hxe, hPc] at hx'
  exact Bool.false_ne_true hx'.2

/-- With duplicate-free keys, the key of an entry satisfying `P` occurs
exactly once among the keys of the `P`-filtered list. -/
theorem count_key_filter (l : List (String × Client))
    (P : String × Client → Bool) (hnd : (l.map Prod.fst).Nodup)
    (cid : String) (c : Client) (hmem : (cid, c) ∈ l)
    (hP : P (cid, c) = true) :
    ((l.filter P).map Prod.fst).count cid = 1 := by
  induction l with
  | nil => cases hmem
  | cons a t ih =>
      simp only [List.map_cons, List.nodup_cons] at hnd
      rcases List.mem_cons.mp hmem with heq | hmem'
      · rw [← heq] at hnd ⊢
        rw [List.filter_cons_of_pos hP]
        simp only [List.map_cons]
        rw [List.count_cons_self]
        have hzero : cid ∉ (t.filter P).map Prod.fst := by
          intro hmm
          apply hnd.1
          show cid ∈ List.map Prod.fst t
          obtain ⟨x, hx, hxe⟩ := List.mem_map.mp hmm
          rw [← hxe]
          exact List.mem_map_of_mem Prod.fst (List.mem_of_mem_filter hx)
        rw [List.count_eq_zero.mpr hzero]
      · have hcid_t : cid ∈ t.map Prod.fst := by
          have := List.mem_map_of_mem Prod.fst hmem'
          simpa using this
        have hne : a.1 ≠ cid := fun h => hnd.1 (h ▸ hcid_t)
        by_cases hPa : P a = true
        · rw [List.filter_cons_of_pos hPa]
          simp only [List.map_cons]
          rw [List.count_cons_of_ne (Ne.symm hne)]
          exact ih hnd.2 hmem'
        · rw [List.filter_cons_of_neg (by simpa using hPa)]
          exact ih hnd.2 hmem'

end GameServer

/-- C6: a session whose `last_seen` is at least the 10-time-unit inactivity
threshold in the past is removed by the next liveness sweep, the
`on_client_disconnect` callback fires exactly once for it during that sweep,
and — the record being gone — a subsequent explicit DISCONNECT for the same
session fires nothing, so timeout eviction and DISCONNECT handling together
fire the callback exactly once per session. -/
theorem stale_session_evicted (st : GameServer) (now : Int) (cid : String)
    (c : Client) (hnd : (st.clients.map Prod.fst).Nodup)
    (hc : GameServer.lookupClient st.clients cid = some c)
    (hstale : CLIENT_TIMEOUT ≤ now - c.last_seen) :
    GameServer.lookupClient (st.timeoutSweep now true).1.clients cid
      = none ∧
    (st.timeoutSweep now true).2.count cid = 1 ∧
    (∀ address : String × Nat, mkClientId address = cid →
      (st.timeoutSweep now true).1.handleDisconnect address true
        = ((st.timeoutSweep now true).1, [])) := by
  have hstale' : c.is_active now 10 = false := by
    unfold Client.is_active
    unfold CLIENT_TIMEOUT at hstale
    simp only [decide_eq_false_iff_not]
    omega
  have hnone : GameServer.lookupClient (st.timeoutSweep now true).1.clients
      cid = none := by
    unfold GameServer.timeoutSweep
    exact GameServer.lookupClient_filter_none st.clients hnd cid c hc _
      hstale'
  refine ⟨hnone, ?_, ?_⟩
  · show ((st.clients.filter
        (fun p => ! p.2.is_active now 10)).map Prod.fst).count cid = 1
    exact GameServer.count_key_filter st.clients _ hnd cid c
      (GameServer.lookup_mem _ _ _ hc) (by simp [hstale'])
  · intro address haddr
    unfold GameServer.handleDisconnect
    rw [haddr, hnone]

/-- Concrete stale registry for the C6 witness: one session last seen at
time 0, swept at time 20. -/
def staleServerW : GameServer := ⟨[("a:1", ⟨"a:1", ("a", 1), 0, 0, 0⟩)]⟩

/-- Witness for C6 at a concrete stale session. -/
theorem stale_session_evicted_witness :
    GameServer.lookupClient (staleServerW.timeoutSweep 20 true).1.clients
      "a:1" = none ∧
    (staleServerW.timeoutSweep 20 true).2.count "a:1" = 1 ∧
    (∀ address : String × Nat, mkClientId address = "a:1" →
      (staleServerW.timeoutSweep 20 true).1.handleDisconnect address true
        = ((staleServerW.timeoutSweep 20 true).1, [])) :=
  stale_session_evicted staleServerW 20 "a:1" ⟨"a:1", ("a", 1), 0, 0, 0⟩
    (by decide) rfl (by decide)

/-! ## Claim theorems: frame queue and broadcast policy -/

namespace ScreenStreamer

/-- One captured frame either leaves the queue untouched or — only when the
queue was not full — appends one chunk at unchanged capacity. -/
theorem onFrameCaptured_queue_cases (st : ScreenStreamer)
    (encoded : Option (List Nat)) (ts : Int) :
    (st.onFrameCaptured encoded ts).1.encoded_queue = st.encoded_queue ∨
    ∃ x, ¬ (0 < st.encoded_queue.maxsize ∧
        st.encoded_queue.maxsize ≤ st.encoded_queue.items.length) ∧
      (st.onFrameCaptured encoded ts).1.encoded_queue =
        ⟨st.encoded_queue.maxsize, st.encoded_queue.items ++ [x]⟩ := by
  unfold onFrameCaptured
  by_cases hg : ¬ st.running ∨ ¬ st.hasEncoder
  · left
    rw [if_pos hg]
  · rw [if_neg hg]
    cases encoded with
    | none => left; rfl
    | some b =>
        dsimp only
        by_cases hb : b.isEmpty
        · left
          rw [if_pos hb]
        · rw [if_neg hb]
          unfold BoundedQueue.put_nowait
          by_cases hfull : 0 < st.encoded_queue.maxsize ∧
              st.encoded_queue.maxsize ≤ st.encoded_queue.items.length
          · left
            rw [if_pos hfull]
          · right
            exact ⟨(b, ts), hfull, by rw [if_neg hfull]⟩

/-- A queue read keeps the capacity and never lengthens the queue. -/
theorem getEncodedFrame_queue (st : ScreenStreamer) :
    st.getEncodedFrame.2.encoded_queue.maxsize = st.encoded_queue.maxsize ∧
    st.getEncodedFrame.2.encoded_queue.items.length
      ≤ st.encoded_queue.items.length := by
  cases hq : st.encoded_queue.items with
  | nil =>
      constructor <;> simp [getEncodedFrame, BoundedQueue.get, hq]
  | cons x rest =>
      constructor <;> simp [getEncodedFrame, BoundedQueue.get, hq]

/-- Invariant of every reachable streamer state: the queue has capacity 5
and never holds more than 5 chunks. -/
theorem reachable_queue_bound (st : ScreenStreamer) (h : Reachable st) :
    st.encoded_queue.maxsize = 5 ∧ st.encoded_queue.items.length ≤ 5 := by
  induction h with
  | init => exact ⟨rfl, by simp [ScreenStreamer.init]⟩
  | start st hasCb _ ih => exact ih
  | frame st encoded ts _ ih =>
      rcases onFrameCaptured_queue_cases st encoded ts with heq | ⟨x, hnf, heq⟩
      · rw [heq]
        exact ih
      · rw [heq]
        refine ⟨ih.1, ?_⟩
        simp only [List.length_append, List.length_cons, List.length_nil]
        rw [ih.1] at hnf
        have := ih.2
        omega
  | get st _ ih =>
      have hg := getEncodedFrame_queue st
      exact ⟨hg.1.trans ih.1, hg.2.trans ih.2⟩

end ScreenStreamer

/-- C7: when the outbound encoded-frame queue already holds its fixed
capacity, delivering a further encoded chunk leaves the queue's contents
unchanged (the new chunk is the one dropped; `put_nowait` never blocks),
and consequently every reachable streamer state holds at most the fixed
capacity of 5 chunks. -/
theorem frame_queue_backpressure (st : ScreenStreamer)
    (encoded : Option (List Nat)) (ts : Int) :
    (st.encoded_queue.items.length = st.encoded_queue.maxsize →
      0 < st.encoded_queue.maxsize →
      (st.onFrameCaptured encoded ts).1.encoded_queue.items
        = st.encoded_queue.items) ∧
    (ScreenStreamer.Reachable st → st.encoded_queue.items.length ≤ 5) := by
  constructor
  · intro hlen hpos
    rcases ScreenStreamer.onFrameCaptured_queue_cases st encoded ts with
      heq | ⟨x, hnf, heq⟩
    · rw [heq]
    · exact absurd ⟨hpos, le_of_eq hlen.symm⟩ hnf
  · intro h
    exact (ScreenStreamer.reachable_queue_bound st h).2

/-- Witness for C7 at the concrete reachable full-queue streamer. -/
theorem frame_queue_backpressure_witness :
    (fullStreamer.onFrameCaptured (some [9]) 1).1.encoded_queue.items
      = fullStreamer.encoded_queue.items ∧
    fullStreamer.encoded_queue.items.length ≤ 5 := by
  have h := frame_queue_backpressure fullStreamer (some [9]) 1
  have hr : ScreenStreamer.Reachable fullStreamer :=
    ScreenStreamer.Reachable.frame _ _ _
      (ScreenStreamer.Reachable.frame _ _ _
        (ScreenStreamer.Reachable.frame _ _ _
          (ScreenStreamer.Reachable.frame _ _ _
            (ScreenStreamer.Reachable.frame _ _ _
              (ScreenStreamer.Reachable.start _ true
                ScreenStreamer.Reachable.init)))))
  exact ⟨h.1 (by decide) (by decide), h.2 hr⟩

/-- C10 counterexample: when the (external) encoder returns the empty byte
string, Python's truthiness test `if encoded:` treats it like no output, so
`_on_frame_captured` performs no `frame_callback` invocation at all — the
chunk is suppressed even though the queue is empty and a callback is
installed, contradicting the claim that every encoder-produced chunk is
handed to `frame_callback`. -/
theorem empty_chunk_not_broadcast :
    (((ScreenStreamer.init 5).start true).onFrameCaptured (some []) 0).2
      = [] ∧
    (((ScreenStreamer.init 5).start true).onFrameCaptured (some []) 0).2
      ≠ [([], 0)] := by
  constructor
  · rfl
  · intro h
    exact List.noConfusion h

/-- C10 (amended): for every non-empty encoded chunk produced by the
encoder while the streamer is running with an encoder and a frame callback
installed, `_on_frame_captured` invokes `frame_callback` with that chunk and
its timestamp regardless of the queue's state — a full queue only drops the
chunk from the internal queue and never suppresses the broadcast. -/
theorem nonempty_chunk_always_broadcast (st : ScreenStreamer)
    (b : List Nat) (ts : Int) (hrun : st.running = true)
    (henc : st.hasEncoder = true) (hcb : st.hasFrameCallback = true)
    (hb : b ≠ []) :
    (st.onFrameCaptured (some b) ts).2 = [(b, ts)] := by
  unfold ScreenStreamer.onFrameCaptured
  rw [if_neg (by simp [hrun, henc])]
  dsimp only
  rw [if_neg (by simpa using hb)]
  simp [hcb]

/-- Witness for C10's amended claim at a concrete full-queue streamer. -/
theorem nonempty_chunk_always_broadcast_witness :
    ((⟨true, true, true,
        ⟨5, [([1], 0), ([1], 0), ([1], 0), ([1], 0), ([1], 0)]⟩⟩ :
      ScreenStreamer).onFrameCaptured (some [9]) 3).2 = [([9], 3)] :=
  nonempty_chunk_always_broadcast _ [9] 3 rfl rfl rfl (by decide)

/-! ## Claim theorems: client handshake -/

/-- C8: `connect()` returns failure without transitioning to connected,
without recording a slot and without starting the keepalive or
video-receive duties, both when no datagram arrives within the handshake
timeout (`recv = none`) and when the arriving datagram is a WELCOME with an
empty slot payload; in both cases exactly one HELLO was sent (no automatic
retry) and `on_connected` never fires. -/
theorem connect_fails_without_slot (c : GameClient) (seq : Nat) :
    c.connect none = ⟨false, c, 1, false⟩ ∧
    c.connect
        (some ((NetworkMessage.mkMessage MessageType.WELCOME [] seq).pack))
      = ⟨false, c, 1, false⟩ := by
  refine ⟨rfl, ?_⟩
  obtain ⟨e, he⟩ :=
    unpack_isError ((NetworkMessage.mkMessage MessageType.WELCOME [] seq).pack)
  simp only [GameClient.connect]
  rw [he]

end CouchController
